import Mathlib

/-!
# istio-operator: egress gateway reconciler and unstructured object matcher

A shallow embedding of

* `pkg/resources/egressgateway/egressgateway.go` (`Reconciler.Reconcile`), and
* `pkg/k8sutil/objectmatch/unstructured.go` (`UnstructuredMatcher.Match`),

together with the properties of the specification that concern them.

Conventions of the embedding.

* A Go `error` is an `Option Error`; `none` is `nil`.
* A Go `*bool` is an `Option Bool`; `none` is the nil pointer.
* The cluster (typed client, dynamic client, logger sink) is an explicit world `W`
  threaded through the calls that reach it.  Every call that leaves the package is
  recorded, in program order, in a list of `Event`s.
* Code that lives outside the two source files is a field of `Collaborators`
  (for the reconciler) or an argument (for the matcher); theorems quantify over it.
-/

set_option autoImplicit false

/-! ## Library types used by both files -/

namespace schema

/-- The type `schema.GroupVersionKind` of apimachinery. -/
structure GroupVersionKind where
  Group : String
  Version : String
  Kind : String
  deriving DecidableEq, Repr

/-- The type `schema.GroupVersionResource` of apimachinery. -/
structure GroupVersionResource where
  Group : String
  Version : String
  Resource : String
  deriving DecidableEq, Repr

end schema

namespace emperror

/-- One element of the variadic `keyvals ...interface{}` of `emperror.WrapWith`, restricted to
the dynamic types the two source files pass. -/
inductive KeyVal where
  | str (s : String)
  | gvk (k : schema.GroupVersionKind)
  | gvr (r : schema.GroupVersionResource)
  deriving DecidableEq, Repr

/-- Non-nil error values.  `New` is an error raised by a collaborator; the other two
constructors are what `emperror.Wrap` and `emperror.WrapWith` build around a cause. -/
inductive Error where
  | New (msg : String)
  | Wrapped (cause : Error) (message : String)
  | WrappedWith (cause : Error) (message : String) (keyvals : List KeyVal)
  deriving DecidableEq, Repr

/-- The library function `emperror.Wrap(err, message)`: nil for a nil `err`, otherwise an error annotating `err`. -/
def Wrap (err : Option Error) (message : String) : Option Error :=
  match err with
  | none => none
  | some e => some (Error.Wrapped e message)

/-- The library function `emperror.WrapWith(err, message, keyvals...)`: nil for a nil `err`, otherwise an
error annotating `err` with the message and the key/value context. -/
def WrapWith (err : Option Error) (message : String) (keyvals : List KeyVal) : Option Error :=
  match err with
  | none => none
  | some e => some (Error.WrappedWith e message keyvals)

end emperror

open emperror (Error KeyVal)

/-! ## `pkg/resources/egressgateway/egressgateway.go` -/

namespace k8sutil

/-- Modelled from the spec: the type `k8sutil.DesiredState` and its three constants are declared
in package `k8sutil`, not in the two files embedded here; section 3 of the specification gives
it as an enum of exactly the three values `Present`, `Exists` and `Absent`. -/
inductive DesiredState where
  | DesiredStatePresent
  | DesiredStateExists
  | DesiredStateAbsent
  deriving DecidableEq, Repr

/-- The part of `k8sutil.DynamicObject` that `Reconcile` reads (`Gvr`); `rest` stands for the
fields this package does not inspect. -/
structure DynamicObject (δ : Type) where
  Gvr : schema.GroupVersionResource
  rest : δ

end k8sutil

open k8sutil (DesiredState DynamicObject)
open k8sutil.DesiredState

namespace util

/-- Modelled from the spec: `util.PointerToBool` is declared in package `util`, not in the two
files embedded here; an unset flag counts as false, so a nil pointer reads as `false`, any other
pointer as the value it points to. -/
def PointerToBool (flag : Option Bool) : Bool :=
  match flag with
  | none => false
  | some b => b

end util

namespace istiov1beta1

abbrev StringMap := List (String × String)

/-- The type `istiov1beta1.MeshGatewayConfiguration`: `Labels` is the one field this package touches,
`other` stands for the remaining fields. -/
structure MeshGatewayConfiguration (κ : Type) where
  Labels : StringMap
  other : κ

/-- The type `istiov1beta1.GatewayConfiguration` (the type of `Spec.Gateways.EgressConfig`). -/
structure GatewayConfiguration (κ π : Type) where
  MeshGatewayConfiguration : istiov1beta1.MeshGatewayConfiguration κ
  Ports : π
  Enabled : Option Bool
  CreateOnly : Option Bool

/-- The type `istiov1beta1.GatewaysConfiguration` (the type of `Spec.Gateways`), egress part. -/
structure GatewaysConfiguration (κ π : Type) where
  Enabled : Option Bool
  EgressConfig : GatewayConfiguration κ π

/-- The type `istiov1beta1.IstioSpec`, restricted to the fields this package reads. -/
structure IstioSpec (κ π : Type) where
  MultiMesh : Option Bool
  Gateways : GatewaysConfiguration κ π

/-- The custom resource `istiov1beta1.Istio` held in `Reconciler.Config`. -/
structure Istio (κ π : Type) where
  Name : String
  Spec : IstioSpec κ π

/-- The type `istiov1beta1.GatewayType`. -/
inductive GatewayType where
  | GatewayTypeIngress
  | GatewayTypeEgress
  deriving DecidableEq, Repr

/-- The type `istiov1beta1.MeshGatewaySpec`. -/
structure MeshGatewaySpec (κ π : Type) where
  MeshGatewayConfiguration : istiov1beta1.MeshGatewayConfiguration κ
  Ports : π
  Type_ : GatewayType

/-- The type `istiov1beta1.MeshGateway`.  `TypeMeta` is what `GetObjectKind().GroupVersionKind()` reads. -/
structure MeshGateway (κ π μ : Type) where
  TypeMeta : schema.GroupVersionKind
  ObjectMeta : μ
  Spec : MeshGatewaySpec κ π

/-- The method `object.GetObjectKind().GroupVersionKind()`. -/
def MeshGateway.GroupVersionKind {κ π μ : Type} (o : MeshGateway κ π μ) : schema.GroupVersionKind :=
  o.TypeMeta

end istiov1beta1

open istiov1beta1 (StringMap Istio MeshGateway MeshGatewaySpec)

namespace resources

/-- The type `resources.DynamicResourceWithDesiredState`: a thunk building the object, and the state wanted. -/
structure DynamicResourceWithDesiredState (δ : Type) where
  DynamicResource : Unit → DynamicObject δ
  DesiredState : DesiredState

end resources

namespace egressgateway

def componentName : String := "egressgateway"

def resourceName : String := "istio-egressgateway"

def resourceLabels : StringMap :=
  [("app", "istio-egressgateway"), ("istio", "egressgateway")]

/-- What one call of `Reconcile` does outside the package, in program order. -/
inductive Event (κ π μ δ : Type) where
  /-- A call `log.Info(msg)` on the logger extended by `log.WithValues("component", component)`. -/
  | Info (component : String) (msg : String)
  /-- A call `k8sutil.Reconcile(log, r.Client, object, desiredState)` and the error it returned. -/
  | K8sReconcile (object : MeshGateway κ π μ) (desiredState : DesiredState) (err : Option Error)
  /-- A call `o.Reconcile(log, r.dynamic, desiredState)` and the error it returned. -/
  | DynamicReconcile (o : DynamicObject δ) (desiredState : DesiredState) (err : Option Error)

/-- The code `Reconcile` calls that is not in `egressgateway.go`.  The two delegated reconciles
receive their object by pointer, so each returns the object as it is after the call. -/
structure Collaborators (κ π μ δ W : Type) where
  /-- The helper `util.MergeStringMaps`. -/
  MergeStringMaps : StringMap → StringMap → StringMap
  /-- The helper `templates.ObjectMeta`. -/
  ObjectMeta : String → StringMap → Istio κ π → μ
  /-- The method `r.multimeshEgressGateway`, defined elsewhere in the package. -/
  multimeshEgressGateway : Istio κ π → DynamicObject δ
  /-- The function `k8sutil.Reconcile(log, r.Client, object, desiredState)`. -/
  k8sReconcile : MeshGateway κ π μ → DesiredState → W → Option Error × MeshGateway κ π μ × W
  /-- The method `o.Reconcile(log, r.dynamic, desiredState)` of a dynamic object. -/
  dynReconcile : DynamicObject δ → DesiredState → W → Option Error × DynamicObject δ × W

/-- The struct `Reconciler`; the client handles it also carries are part of the world `W`. -/
structure Reconciler (κ π : Type) where
  Config : Istio κ π

/-- What a call of `Reconcile` leaves behind: the returned error, the world, the events. -/
structure Outcome (κ π μ δ W : Type) where
  err : Option Error
  world : W
  trace : List (Event κ π μ δ)

section
variable {κ π μ δ W : Type}

/-- The method `r.labels()`. -/
def Reconciler.labels (ext : Collaborators κ π μ δ W) (r : Reconciler κ π) : StringMap :=
  ext.MergeStringMaps resourceLabels r.Config.Spec.Gateways.EgressConfig.MeshGatewayConfiguration.Labels

/-- The local `desiredState` of `Reconcile` (lines 64-73 of the file). -/
def Reconciler.desiredState (r : Reconciler κ π) : DesiredState :=
  if util.PointerToBool r.Config.Spec.Gateways.Enabled
      && util.PointerToBool r.Config.Spec.Gateways.EgressConfig.Enabled then
    let desiredState := DesiredStatePresent
    if util.PointerToBool r.Config.Spec.Gateways.EgressConfig.CreateOnly then
      DesiredStateExists
    else
      desiredState
  else
    DesiredStateAbsent

/-- The local `object` of `Reconcile` (lines 75-84); the composite literal leaves `TypeMeta` zero. -/
def Reconciler.object (ext : Collaborators κ π μ δ W) (r : Reconciler κ π) : MeshGateway κ π μ :=
  let spec : MeshGatewaySpec κ π :=
    { MeshGatewayConfiguration := r.Config.Spec.Gateways.EgressConfig.MeshGatewayConfiguration
      Ports := r.Config.Spec.Gateways.EgressConfig.Ports
      Type_ := istiov1beta1.GatewayType.GatewayTypeEgress }
  let spec : MeshGatewaySpec κ π :=
    { spec with MeshGatewayConfiguration := { spec.MeshGatewayConfiguration with Labels := r.labels ext } }
  { TypeMeta := { Group := "", Version := "", Kind := "" }
    ObjectMeta := ext.ObjectMeta resourceName spec.MeshGatewayConfiguration.Labels r.Config
    Spec := spec }

/-- The local `multimeshEgressGatewayDesiredState` of `Reconcile` (lines 91-99). -/
def Reconciler.multimeshEgressGatewayDesiredState (r : Reconciler κ π) : DesiredState :=
  if util.PointerToBool r.Config.Spec.MultiMesh
      && util.PointerToBool r.Config.Spec.Gateways.EgressConfig.Enabled then
    let multimeshEgressGatewayDesiredState := DesiredStatePresent
    if util.PointerToBool r.Config.Spec.Gateways.EgressConfig.CreateOnly then
      DesiredStateExists
    else
      multimeshEgressGatewayDesiredState
  else
    DesiredStateAbsent

/-- The loop `for _, dr := range drs` (lines 109-115): the first failing reconcile ends it with the
wrapped error; `none` means the loop ran to its end. -/
def reconcileDynamicResources (ext : Collaborators κ π μ δ W) :
    List (resources.DynamicResourceWithDesiredState δ) → W → Option Error × W × List (Event κ π μ δ)
  | [], w => (none, w, [])
  | dr :: drs, w =>
    let o := dr.DynamicResource ()
    match ext.dynReconcile o dr.DesiredState w with
    | (some err, o', w') =>
      (emperror.WrapWith (some err) "failed to reconcile dynamic resource" [KeyVal.str "resource", KeyVal.gvr o'.Gvr],
        w', [Event.DynamicReconcile o dr.DesiredState (some err)])
    | (none, _, w') =>
      match reconcileDynamicResources ext drs w' with
      | (res, w'', tr) => (res, w'', Event.DynamicReconcile o dr.DesiredState none :: tr)

/-- The method `(r *Reconciler) Reconcile(log)`. -/
def Reconciler.Reconcile (ext : Collaborators κ π μ δ W) (r : Reconciler κ π) (w : W) :
    Outcome κ π μ δ W :=
  let desiredState := r.desiredState
  let object := r.object ext
  match ext.k8sReconcile object desiredState w with
  | (some err, object', w₁) =>
    { err := emperror.WrapWith (some err) "failed to reconcile resource"
        [KeyVal.str "resource", KeyVal.gvk object'.GroupVersionKind]
      world := w₁
      trace := [Event.Info componentName "Reconciling", Event.K8sReconcile object desiredState (some err)] }
  | (none, _, w₁) =>
    let multimeshEgressGatewayDesiredState := r.multimeshEgressGatewayDesiredState
    if r.Config.Name = "istio-config" then
      { err := none
        world := w₁
        trace := [Event.Info componentName "Reconciling", Event.K8sReconcile object desiredState none,
          Event.Info componentName "Reconciled"] }
    else
      let drs : List (resources.DynamicResourceWithDesiredState δ) :=
        [{ DynamicResource := fun _ => ext.multimeshEgressGateway r.Config
           DesiredState := multimeshEgressGatewayDesiredState }]
      match reconcileDynamicResources ext drs w₁ with
      | (some err, w₂, tr) =>
        { err := some err
          world := w₂
          trace := Event.Info componentName "Reconciling" :: Event.K8sReconcile object desiredState none :: tr }
      | (none, w₂, tr) =>
        { err := none
          world := w₂
          trace := Event.Info componentName "Reconciling" :: Event.K8sReconcile object desiredState none
            :: (tr ++ [Event.Info componentName "Reconciled"]) }

end

end egressgateway

/-! ## `pkg/k8sutil/objectmatch/unstructured.go` -/

namespace objectmatch

/-- The method `UnstructuredMatcher.Match(old, new)`.

`U` is the type of `*unstructured.Unstructured` values and `Data` the type of `[]byte` values.
`jsonMarshal` is `json.Marshal` and `innerMatch` is the package function `match`; both return a
Go pair `(value, error)`, and a value that comes with a non-nil error is not looked at. -/
def UnstructuredMatcher.Match {U Data : Type}
    (jsonMarshal : U → Data × Option Error)
    (innerMatch : Data → Data → U → Bool × Option Error)
    (old new : U) : Bool × Option Error :=
  match jsonMarshal old with
  | (_, some err) => (false, emperror.Wrap (some err) "could not marshal object")
  | (oldData, none) =>
    match jsonMarshal new with
    | (_, some err) => (false, emperror.Wrap (some err) "could not marshal object")
    | (newData, none) =>
      match innerMatch oldData newData new with
      | (_, some err) => (false, emperror.Wrap (some err) "could not match objects")
      | (matched, none) => (matched, none)

/-- Modelled from the spec: the canonical tree form of a resource document, which the package
function `match` works on (sections 3 and 9 of the specification):
a tagged variant of scalars, mappings from string keys, and ordered sequences.
Numbers are integers here; floating point values are outside the model. -/
inductive Document where
  | null
  | bool (b : Bool)
  | number (n : Int)
  | string (s : String)
  | mapping (fields : List (String × Document))
  | sequence (items : List Document)

/-- One step of a field path: a mapping key or a sequence index. -/
inductive Segment where
  | key (k : String)
  | index (i : Nat)
  deriving DecidableEq, Repr

/-- A field path: the address of a node inside a document. -/
abbrev FieldPath := List Segment

/-- The allow-list of section 4.1 for the kind being matched: the known server-populated default
of a field path, when it has one. -/
abbrev DefaultsTable := FieldPath → Option Document

mutual
/-- Equality of two documents, node by node. -/
def Document.beq : Document → Document → Bool
  | Document.null, Document.null => true
  | Document.bool a, Document.bool b => a == b
  | Document.number a, Document.number b => a == b
  | Document.string a, Document.string b => a == b
  | Document.mapping a, Document.mapping b => Document.beqFields a b
  | Document.sequence a, Document.sequence b => Document.beqItems a b
  | _, _ => false
/-- Equality of two field lists, entry by entry. -/
def Document.beqFields : List (String × Document) → List (String × Document) → Bool
  | [], [] => true
  | (k, v) :: a, (k', v') :: b => k == k' && Document.beq v v' && Document.beqFields a b
  | _, _ => false
/-- Equality of two item lists, position by position. -/
def Document.beqItems : List Document → List Document → Bool
  | [], [] => true
  | v :: a, v' :: b => Document.beq v v' && Document.beqItems a b
  | _, _ => false
end

mutual
/-- Whether every mapping of the document, at any depth, has pairwise distinct keys
(section 3: mappings with unique string keys). -/
def Document.uniqueKeys : Document → Bool
  | Document.mapping fields => Document.uniqueKeysFields fields
  | Document.sequence items => Document.uniqueKeysItems items
  | _ => true
/-- Distinct keys within one field list, and in every value under it. -/
def Document.uniqueKeysFields : List (String × Document) → Bool
  | [] => true
  | (k, v) :: fields =>
    (List.lookup k fields).isNone && Document.uniqueKeys v && Document.uniqueKeysFields fields
/-- Distinct keys in every item of a sequence. -/
def Document.uniqueKeysItems : List Document → Bool
  | [] => true
  | v :: items => Document.uniqueKeys v && Document.uniqueKeysItems items
end

/-- Modelled from the spec: step 2, first bullet, of section 4.1, part of the package function
`match`: a desired field missing from live is a mismatch at its path unless the table lists the
path with a default equal to the desired value. -/
def absentInLive (defaults : DefaultsTable) (path : FieldPath) (desired : Document) : List FieldPath :=
  match defaults path with
  | some d => if Document.beq d desired then [] else [path]
  | none => [path]

mutual
/-- Modelled from the spec: the walk of steps 2 to 4 of section 4.1 (the body of the package
function `match`, which is defined in another file of the package).  It follows the desired
document depth-first and collects the paths where live does not carry desired's value; what
only live has is not visited. -/
def diffPaths (defaults : DefaultsTable) (path : FieldPath) (live : Document) :
    Document → List FieldPath
  | Document.null =>
    match live with
    | Document.null => []
    | _ => [path]
  | Document.bool b =>
    match live with
    | Document.bool a => if a = b then [] else [path]
    | _ => [path]
  | Document.number n =>
    match live with
    | Document.number m => if m = n then [] else [path]
    | _ => [path]
  | Document.string s =>
    match live with
    | Document.string t => if t = s then [] else [path]
    | _ => [path]
  | Document.mapping desiredFields =>
    match live with
    | Document.mapping liveFields => diffFields defaults path liveFields desiredFields
    | _ => [path]
  | Document.sequence desiredItems =>
    match live with
    | Document.sequence liveItems => diffItems defaults path 0 liveItems desiredItems
    | _ => [path]
/-- Modelled from the spec: the walk of `match` over the fields of a desired mapping; each key is
looked up in the live mapping. -/
def diffFields (defaults : DefaultsTable) (path : FieldPath) (liveFields : List (String × Document)) :
    List (String × Document) → List FieldPath
  | [] => []
  | (k, desired) :: rest =>
    (match List.lookup k liveFields with
      | none => absentInLive defaults (path ++ [Segment.key k]) desired
      | some live => diffPaths defaults (path ++ [Segment.key k]) live desired)
    ++ diffFields defaults path liveFields rest
/-- Modelled from the spec: the walk of `match` over the items of a desired sequence, by position,
up to the desired length (step 4 of section 4.1). -/
def diffItems (defaults : DefaultsTable) (path : FieldPath) (i : Nat) (liveItems : List Document) :
    List Document → List FieldPath
  | [] => []
  | desired :: rest =>
    (match liveItems with
      | [] => absentInLive defaults (path ++ [Segment.index i]) desired
      | live :: _ => diffPaths defaults (path ++ [Segment.index i]) live desired)
    ++ diffItems defaults path (i + 1) liveItems.tail rest
end

/-- Modelled from the spec: the package function `match(oldData, newData, newObject)`, which is
defined in another file of the package.  By step 5 of section 4.1 the verdict is that the walk found no differing path;
section 4.1 names no way for the walk itself to fail. -/
def match_ {U : Type} (defaults : DefaultsTable) (oldData newData : Document) (_newObject : U) :
    Bool × Option Error :=
  ((diffPaths defaults [] oldData newData).isEmpty, none)

mutual
/-- The relation `AddsFields d l`: `l` is `d` with extra fields inserted into its mappings, at any depth. -/
inductive AddsFields : Document → Document → Prop
  | null : AddsFields Document.null Document.null
  | bool (b : Bool) : AddsFields (Document.bool b) (Document.bool b)
  | number (n : Int) : AddsFields (Document.number n) (Document.number n)
  | string (s : String) : AddsFields (Document.string s) (Document.string s)
  | mapping {ds ls : List (String × Document)} :
    AddsFieldsMapping ds ls → AddsFields (Document.mapping ds) (Document.mapping ls)
  | sequence {ds ls : List Document} :
    AddsFieldsItems ds ls → AddsFields (Document.sequence ds) (Document.sequence ls)
/-- Field lists: every field of `ds` is kept in order under its key, and `extra` inserts a field. -/
inductive AddsFieldsMapping : List (String × Document) → List (String × Document) → Prop
  | nil : AddsFieldsMapping [] []
  | keep {k : String} {dv lv : Document} {ds ls : List (String × Document)} :
    AddsFields dv lv → AddsFieldsMapping ds ls → AddsFieldsMapping ((k, dv) :: ds) ((k, lv) :: ls)
  | extra {k : String} {v : Document} {ds ls : List (String × Document)} :
    AddsFieldsMapping ds ls → AddsFieldsMapping ds ((k, v) :: ls)
/-- Item lists: same length, items related position by position. -/
inductive AddsFieldsItems : List Document → List Document → Prop
  | nil : AddsFieldsItems [] []
  | cons {dv lv : Document} {ds ls : List Document} :
    AddsFields dv lv → AddsFieldsItems ds ls → AddsFieldsItems (dv :: ds) (lv :: ls)
end

end objectmatch

/-! ## Reading a trace, and inputs used to illustrate the theorems -/

namespace egressgateway

section
variable {κ π μ δ : Type}

/-- The desired states passed to `k8sutil.Reconcile`, in call order. -/
def k8sStates : List (Event κ π μ δ) → List DesiredState
  | [] => []
  | Event.K8sReconcile _ s _ :: tr => s :: k8sStates tr
  | _ :: tr => k8sStates tr

/-- The desired states passed to the `Reconcile` method of dynamic objects, in call order. -/
def dynamicStates : List (Event κ π μ δ) → List DesiredState
  | [] => []
  | Event.DynamicReconcile _ s _ :: tr => s :: dynamicStates tr
  | _ :: tr => dynamicStates tr

/-- The errors returned by the delegated reconciles of either kind, in call order. -/
def delegatedResults : List (Event κ π μ δ) → List (Option Error)
  | [] => []
  | Event.K8sReconcile _ _ e :: tr => e :: delegatedResults tr
  | Event.DynamicReconcile _ _ e :: tr => e :: delegatedResults tr
  | Event.Info _ _ :: tr => delegatedResults tr

/-- Whether the event is a call of the `Reconcile` method of a dynamic object. -/
def Event.isDynamicReconcile : Event κ π μ δ → Bool
  | Event.DynamicReconcile _ _ _ => true
  | _ => false

/-- The same reconciler with `Spec.Gateways.Enabled` replaced and nothing else changed. -/
def Reconciler.withGatewaysEnabled (r : Reconciler κ π) (flag : Option Bool) : Reconciler κ π :=
  { r with Config := { r.Config with Spec := { r.Config.Spec with
      Gateways := { r.Config.Spec.Gateways with Enabled := flag } } } }

end

/-- A configuration with the given name and flags, and empty payloads. -/
def sampleReconciler (name : String) (multiMesh gateways egress createOnly : Option Bool) :
    Reconciler Unit Unit :=
  { Config :=
    { Name := name
      Spec :=
      { MultiMesh := multiMesh
        Gateways :=
        { Enabled := gateways
          EgressConfig :=
          { MeshGatewayConfiguration := { Labels := [], other := () }
            Ports := ()
            Enabled := egress
            CreateOnly := createOnly } } } } }

/-- Collaborators over a world that counts the writes made; `k8sErr` and `dynErr` are what the two
delegated reconciles return. -/
def sampleCollaborators (k8sErr dynErr : Option Error) : Collaborators Unit Unit Unit Unit Nat :=
  { MergeStringMaps := fun a b => a ++ b
    ObjectMeta := fun _ _ _ => ()
    multimeshEgressGateway := fun _ =>
      { Gvr := { Group := "networking.istio.io", Version := "v1alpha3", Resource := "gateways" }
        rest := () }
    k8sReconcile := fun o _ w => (k8sErr, o, w + 1)
    dynReconcile := fun o _ w => (dynErr, o, w + 1) }

end egressgateway

namespace objectmatch

/-- A marshaller for values that already are documents: it returns its argument and no error. -/
def marshalDocument (d : Document) : Document × Option Error := (d, none)

/-- A marshaller over numbers that fails on zero and returns any other number unchanged. -/
def sampleMarshal (n : Nat) : Nat × Option Error :=
  if n = 0 then (0, some (Error.New "unsupported value")) else (n, none)

/-- An inner match over numbers that is not symmetric in its first two arguments: the verdict
is that the second divides the first. -/
def sampleInnerMatch (oldData newData : Nat) (_newObject : Nat) : Bool × Option Error :=
  (oldData % newData == 0, none)

/-- A desired document with one nested mapping. -/
def sampleDesired : Document :=
  Document.mapping
    [("kind", Document.string "Gateway"),
     ("spec", Document.mapping [("replicas", Document.number 1)])]

/-- The live counterpart of `sampleDesired`, with one extra field at each level. -/
def sampleLive : Document :=
  Document.mapping
    [("kind", Document.string "Gateway"),
     ("spec", Document.mapping [("clusterIP", Document.string "10.0.0.1"), ("replicas", Document.number 1)]),
     ("uid", Document.string "7f3c")]

/-- A live document that carries every field of `sampleDesired` but a different `replicas`. -/
def sampleDrifted : Document :=
  Document.mapping
    [("kind", Document.string "Gateway"),
     ("spec", Document.mapping [("clusterIP", Document.string "10.0.0.1"), ("replicas", Document.number 3)]),
     ("uid", Document.string "7f3c")]

end objectmatch

/-! ## Theorems: the egress gateway reconciler -/

namespace egressgateway

section
variable {κ π μ δ W : Type}

/-- Reading `util.PointerToBool` as true is the same as the flag being set and true. -/
theorem PointerToBool_eq_true (flag : Option Bool) :
    util.PointerToBool flag = true ↔ flag = some true := by
  cases flag with
  | none => simp [util.PointerToBool]
  | some b => simp [util.PointerToBool]

/-- The three values of the local `desiredState`, by the flags that produce them. -/
theorem desiredState_cases (r : Reconciler κ π) :
    (r.desiredState = DesiredStatePresent ↔
      (r.Config.Spec.Gateways.Enabled = some true
        ∧ r.Config.Spec.Gateways.EgressConfig.Enabled = some true)
        ∧ ¬ r.Config.Spec.Gateways.EgressConfig.CreateOnly = some true)
    ∧ (r.desiredState = DesiredStateExists ↔
      (r.Config.Spec.Gateways.Enabled = some true
        ∧ r.Config.Spec.Gateways.EgressConfig.Enabled = some true)
        ∧ r.Config.Spec.Gateways.EgressConfig.CreateOnly = some true)
    ∧ (r.desiredState = DesiredStateAbsent ↔
      ¬ (r.Config.Spec.Gateways.Enabled = some true
        ∧ r.Config.Spec.Gateways.EgressConfig.Enabled = some true)) := by
  unfold Reconciler.desiredState
  simp only [Bool.and_eq_true, PointerToBool_eq_true]
  by_cases h1 : r.Config.Spec.Gateways.Enabled = some true
    <;> by_cases h2 : r.Config.Spec.Gateways.EgressConfig.Enabled = some true
    <;> by_cases h3 : r.Config.Spec.Gateways.EgressConfig.CreateOnly = some true
    <;> simp [h1, h2, h3]

/-- The three values of the local `multimeshEgressGatewayDesiredState`, by the flags that produce them. -/
theorem multimeshEgressGatewayDesiredState_cases (r : Reconciler κ π) :
    (r.multimeshEgressGatewayDesiredState = DesiredStatePresent ↔
      (r.Config.Spec.MultiMesh = some true
        ∧ r.Config.Spec.Gateways.EgressConfig.Enabled = some true)
        ∧ ¬ r.Config.Spec.Gateways.EgressConfig.CreateOnly = some true)
    ∧ (r.multimeshEgressGatewayDesiredState = DesiredStateExists ↔
      (r.Config.Spec.MultiMesh = some true
        ∧ r.Config.Spec.Gateways.EgressConfig.Enabled = some true)
        ∧ r.Config.Spec.Gateways.EgressConfig.CreateOnly = some true)
    ∧ (r.multimeshEgressGatewayDesiredState = DesiredStateAbsent ↔
      ¬ (r.Config.Spec.MultiMesh = some true
        ∧ r.Config.Spec.Gateways.EgressConfig.Enabled = some true)) := by
  unfold Reconciler.multimeshEgressGatewayDesiredState
  simp only [Bool.and_eq_true, PointerToBool_eq_true]
  by_cases h1 : r.Config.Spec.MultiMesh = some true
    <;> by_cases h2 : r.Config.Spec.Gateways.EgressConfig.Enabled = some true
    <;> by_cases h3 : r.Config.Spec.Gateways.EgressConfig.CreateOnly = some true
    <;> simp [h1, h2, h3]

/-- The outcome when the MeshGateway reconcile fails: the wrapped error, and nothing after the call. -/
theorem Reconcile_of_k8s_error (ext : Collaborators κ π μ δ W) (r : Reconciler κ π) (w w₁ : W)
    (e : Error) (o : MeshGateway κ π μ)
    (h : ext.k8sReconcile (r.object ext) r.desiredState w = (some e, o, w₁)) :
    r.Reconcile ext w =
      { err := some (Error.WrappedWith e "failed to reconcile resource"
          [KeyVal.str "resource", KeyVal.gvk o.GroupVersionKind])
        world := w₁
        trace := [Event.Info componentName "Reconciling", Event.K8sReconcile (r.object ext) r.desiredState (some e)] } := by
  simp [Reconciler.Reconcile, h, emperror.WrapWith]

/-- The outcome for the resource named `istio-config` once the MeshGateway reconcile succeeded. -/
theorem Reconcile_of_istio_config (ext : Collaborators κ π μ δ W) (r : Reconciler κ π) (w w₁ : W)
    (o : MeshGateway κ π μ)
    (h : ext.k8sReconcile (r.object ext) r.desiredState w = (none, o, w₁))
    (hn : r.Config.Name = "istio-config") :
    r.Reconcile ext w =
      { err := none
        world := w₁
        trace := [Event.Info componentName "Reconciling", Event.K8sReconcile (r.object ext) r.desiredState none,
          Event.Info componentName "Reconciled"] } := by
  simp [Reconciler.Reconcile, h, hn]

/-- The outcome when the MeshGateway reconcile succeeded and the dynamic one fails. -/
theorem Reconcile_of_dynamic_error (ext : Collaborators κ π μ δ W) (r : Reconciler κ π)
    (w w₁ w₂ : W)
    (o : MeshGateway κ π μ) (e : Error) (o₂ : DynamicObject δ)
    (h : ext.k8sReconcile (r.object ext) r.desiredState w = (none, o, w₁))
    (hn : r.Config.Name ≠ "istio-config")
    (hd : ext.dynReconcile (ext.multimeshEgressGateway r.Config)
      r.multimeshEgressGatewayDesiredState w₁ = (some e, o₂, w₂)) :
    r.Reconcile ext w =
      { err := some (Error.WrappedWith e "failed to reconcile dynamic resource"
          [KeyVal.str "resource", KeyVal.gvr o₂.Gvr])
        world := w₂
        trace := [Event.Info componentName "Reconciling", Event.K8sReconcile (r.object ext) r.desiredState none,
          Event.DynamicReconcile (ext.multimeshEgressGateway r.Config)
            r.multimeshEgressGatewayDesiredState (some e)] } := by
  simp [Reconciler.Reconcile, h, hn, reconcileDynamicResources, hd, emperror.WrapWith]

/-- The outcome when both delegated reconciles succeed. -/
theorem Reconcile_of_dynamic_ok (ext : Collaborators κ π μ δ W) (r : Reconciler κ π) (w w₁ w₂ : W)
    (o : MeshGateway κ π μ) (o₂ : DynamicObject δ)
    (h : ext.k8sReconcile (r.object ext) r.desiredState w = (none, o, w₁))
    (hn : r.Config.Name ≠ "istio-config")
    (hd : ext.dynReconcile (ext.multimeshEgressGateway r.Config)
      r.multimeshEgressGatewayDesiredState w₁ = (none, o₂, w₂)) :
    r.Reconcile ext w =
      { err := none
        world := w₂
        trace := [Event.Info componentName "Reconciling", Event.K8sReconcile (r.object ext) r.desiredState none,
          Event.DynamicReconcile (ext.multimeshEgressGateway r.Config)
            r.multimeshEgressGatewayDesiredState none,
          Event.Info componentName "Reconciled"] } := by
  simp [Reconciler.Reconcile, h, hn, reconcileDynamicResources, hd]

/-- Every call of `Reconcile` falls under one of the four outcome lemmas. -/
theorem Reconcile_cases (ext : Collaborators κ π μ δ W) (r : Reconciler κ π) (w : W) :
    (∃ e o w₁, ext.k8sReconcile (r.object ext) r.desiredState w = (some e, o, w₁))
    ∨ (∃ o w₁, ext.k8sReconcile (r.object ext) r.desiredState w = (none, o, w₁)
        ∧ r.Config.Name = "istio-config")
    ∨ (∃ o w₁ e o₂ w₂, ext.k8sReconcile (r.object ext) r.desiredState w = (none, o, w₁)
        ∧ r.Config.Name ≠ "istio-config"
        ∧ ext.dynReconcile (ext.multimeshEgressGateway r.Config)
            r.multimeshEgressGatewayDesiredState w₁ = (some e, o₂, w₂))
    ∨ (∃ o w₁ o₂ w₂, ext.k8sReconcile (r.object ext) r.desiredState w = (none, o, w₁)
        ∧ r.Config.Name ≠ "istio-config"
        ∧ ext.dynReconcile (ext.multimeshEgressGateway r.Config)
            r.multimeshEgressGatewayDesiredState w₁ = (none, o₂, w₂)) := by
  rcases hk : ext.k8sReconcile (r.object ext) r.desiredState w with ⟨_ | e, o, w₁⟩
  · by_cases hn : r.Config.Name = "istio-config"
    · exact Or.inr (Or.inl ⟨o, w₁, rfl, hn⟩)
    · rcases hd : ext.dynReconcile (ext.multimeshEgressGateway r.Config)
        r.multimeshEgressGatewayDesiredState w₁ with ⟨_ | e, o₂, w₂⟩
      · exact Or.inr (Or.inr (Or.inr ⟨o, w₁, o₂, w₂, rfl, hn, hd⟩))
      · exact Or.inr (Or.inr (Or.inl ⟨o, w₁, e, o₂, w₂, rfl, hn, hd⟩))
  · exact Or.inl ⟨e, o, w₁, rfl⟩

/-- A dynamic reconcile issued by `Reconcile` receives the derived multi-mesh desired state. -/
theorem dynamicStates_Reconcile (ext : Collaborators κ π μ δ W) (r : Reconciler κ π) (w : W) :
    ∀ s ∈ dynamicStates (r.Reconcile ext w).trace, s = r.multimeshEgressGatewayDesiredState := by
  rcases Reconcile_cases ext r w with ⟨e, o, w₁, h⟩ | ⟨o, w₁, h, hn⟩
    | ⟨o, w₁, e, o₂, w₂, h, hn, hd⟩ | ⟨o, w₁, o₂, w₂, h, hn, hd⟩
  · rw [Reconcile_of_k8s_error ext r w w₁ e o h]
    simp [dynamicStates]
  · rw [Reconcile_of_istio_config ext r w w₁ o h hn]
    simp [dynamicStates]
  · rw [Reconcile_of_dynamic_error ext r w w₁ w₂ o e o₂ h hn hd]
    simp [dynamicStates]
  · rw [Reconcile_of_dynamic_ok ext r w w₁ w₂ o o₂ h hn hd]
    simp [dynamicStates]

/-- Once the MeshGateway reconcile succeeded for a resource not named `istio-config`, exactly one
dynamic reconcile is issued, with the derived multi-mesh desired state. -/
theorem dynamicStates_Reconcile_issued (ext : Collaborators κ π μ δ W) (r : Reconciler κ π) (w : W)
    (hk : (ext.k8sReconcile (r.object ext) r.desiredState w).1 = none)
    (hn : r.Config.Name ≠ "istio-config") :
    dynamicStates (r.Reconcile ext w).trace = [r.multimeshEgressGatewayDesiredState] := by
  rcases Reconcile_cases ext r w with ⟨e, o, w₁, h⟩ | ⟨o, w₁, h, hn'⟩
    | ⟨o, w₁, e, o₂, w₂, h, _, hd⟩ | ⟨o, w₁, o₂, w₂, h, _, hd⟩
  · rw [h] at hk; exact absurd hk (by simp)
  · exact absurd hn' hn
  · rw [Reconcile_of_dynamic_error ext r w w₁ w₂ o e o₂ h hn hd]
    simp [dynamicStates]
  · rw [Reconcile_of_dynamic_ok ext r w w₁ w₂ o o₂ h hn hd]
    simp [dynamicStates]

/-! ### Properties of `Reconciler.Reconcile` -/

/-- C1: for every configuration, collaborator behaviour and world, `Reconcile` calls
`k8sutil.Reconcile` for the MeshGateway exactly once, and the desired state it passes is
`Present` iff the feature is enabled (`Gateways.Enabled` and `EgressConfig.Enabled` both set and
true) and `CreateOnly` is not, `Exists` iff enabled and `CreateOnly`, `Absent` iff not enabled.
With `CreateOnly` set and the feature disabled the state is `Absent`, and `Reconcile` returns nil
unless a delegated reconcile returned an error. -/
theorem C1_meshgateway_desired_state (ext : Collaborators κ π μ δ W) (r : Reconciler κ π) (w : W) :
    ∃ s : DesiredState,
      k8sStates (r.Reconcile ext w).trace = [s]
      ∧ (s = DesiredStatePresent ↔
          (r.Config.Spec.Gateways.Enabled = some true
            ∧ r.Config.Spec.Gateways.EgressConfig.Enabled = some true)
          ∧ ¬ r.Config.Spec.Gateways.EgressConfig.CreateOnly = some true)
      ∧ (s = DesiredStateExists ↔
          (r.Config.Spec.Gateways.Enabled = some true
            ∧ r.Config.Spec.Gateways.EgressConfig.Enabled = some true)
          ∧ r.Config.Spec.Gateways.EgressConfig.CreateOnly = some true)
      ∧ (s = DesiredStateAbsent ↔
          ¬ (r.Config.Spec.Gateways.Enabled = some true
            ∧ r.Config.Spec.Gateways.EgressConfig.Enabled = some true))
      ∧ (r.Config.Spec.Gateways.EgressConfig.CreateOnly = some true
          ∧ ¬ (r.Config.Spec.Gateways.Enabled = some true
            ∧ r.Config.Spec.Gateways.EgressConfig.Enabled = some true) →
          s = DesiredStateAbsent
          ∧ ((∀ e ∈ delegatedResults (r.Reconcile ext w).trace, e = none) →
              (r.Reconcile ext w).err = none)) := by
  obtain ⟨hP, hE, hA⟩ := desiredState_cases r
  refine ⟨r.desiredState, ?_, hP, hE, hA, ?_⟩
  · rcases Reconcile_cases ext r w with ⟨e, o, w₁, h⟩ | ⟨o, w₁, h, hn⟩
      | ⟨o, w₁, e, o₂, w₂, h, hn, hd⟩ | ⟨o, w₁, o₂, w₂, h, hn, hd⟩
    · rw [Reconcile_of_k8s_error ext r w w₁ e o h]; rfl
    · rw [Reconcile_of_istio_config ext r w w₁ o h hn]; rfl
    · rw [Reconcile_of_dynamic_error ext r w w₁ w₂ o e o₂ h hn hd]; rfl
    · rw [Reconcile_of_dynamic_ok ext r w w₁ w₂ o o₂ h hn hd]; rfl
  · rintro ⟨_, hne⟩
    refine ⟨hA.mpr hne, ?_⟩
    rcases Reconcile_cases ext r w with ⟨e, o, w₁, h⟩ | ⟨o, w₁, h, hn⟩
      | ⟨o, w₁, e, o₂, w₂, h, hn, hd⟩ | ⟨o, w₁, o₂, w₂, h, hn, hd⟩
    · rw [Reconcile_of_k8s_error ext r w w₁ e o h]
      intro hall
      have := hall (some e) (by simp [delegatedResults])
      simp at this
    · rw [Reconcile_of_istio_config ext r w w₁ o h hn]
      intro _; rfl
    · rw [Reconcile_of_dynamic_error ext r w w₁ w₂ o e o₂ h hn hd]
      intro hall
      have := hall (some e) (by simp [delegatedResults])
      simp at this
    · rw [Reconcile_of_dynamic_ok ext r w w₁ w₂ o o₂ h hn hd]
      intro _; rfl

/-- C4: if `k8sutil.Reconcile` for the MeshGateway returns an error, `Reconcile` returns a non-nil
error, the trace holds no call of a dynamic object's `Reconcile`, and the world is the one the
failed call left. -/
theorem C4_stops_after_failed_write (ext : Collaborators κ π μ δ W) (r : Reconciler κ π) (w : W)
    (h : (ext.k8sReconcile (r.object ext) r.desiredState w).1 ≠ none) :
    (r.Reconcile ext w).err ≠ none
    ∧ (∀ ev ∈ (r.Reconcile ext w).trace, ev.isDynamicReconcile = false)
    ∧ dynamicStates (r.Reconcile ext w).trace = []
    ∧ (r.Reconcile ext w).world = (ext.k8sReconcile (r.object ext) r.desiredState w).2.2 := by
  rcases hk : ext.k8sReconcile (r.object ext) r.desiredState w with ⟨_ | e, o, w₁⟩
  · rw [hk] at h; exact absurd rfl h
  · rw [Reconcile_of_k8s_error ext r w w₁ e o hk]
    refine ⟨by simp, ?_, rfl, rfl⟩
    intro ev hev
    simp only [List.mem_cons, List.mem_singleton, List.not_mem_nil, or_false] at hev
    rcases hev with rfl | rfl <;> rfl

/-- C5: `Reconcile` returns a non-nil error exactly when the MeshGateway reconcile fails, or it
succeeds, `Config.Name` is not `istio-config` and the dynamic reconcile fails.  In the first case
the error is the cause wrapped with the object's `GroupVersionKind` under the key `resource`, in
the second the cause wrapped with the dynamic object's `Gvr`; in both the failed call is the last
delegated call.  Each delegated reconcile is issued at most once, so nothing is retried. -/
theorem C5_error_iff_delegate_fails (ext : Collaborators κ π μ δ W) (r : Reconciler κ π) (w : W) :
    ((r.Reconcile ext w).err ≠ none ↔
      ((ext.k8sReconcile (r.object ext) r.desiredState w).1 ≠ none
        ∨ ((ext.k8sReconcile (r.object ext) r.desiredState w).1 = none
          ∧ r.Config.Name ≠ "istio-config"
          ∧ (ext.dynReconcile (ext.multimeshEgressGateway r.Config)
              r.multimeshEgressGatewayDesiredState
              (ext.k8sReconcile (r.object ext) r.desiredState w).2.2).1 ≠ none)))
    ∧ (∀ e, (ext.k8sReconcile (r.object ext) r.desiredState w).1 = some e →
        (r.Reconcile ext w).err = some (Error.WrappedWith e "failed to reconcile resource"
          [KeyVal.str "resource",
           KeyVal.gvk (ext.k8sReconcile (r.object ext) r.desiredState w).2.1.GroupVersionKind])
        ∧ delegatedResults (r.Reconcile ext w).trace = [some e])
    ∧ (∀ e, (ext.k8sReconcile (r.object ext) r.desiredState w).1 = none →
        r.Config.Name ≠ "istio-config" →
        (ext.dynReconcile (ext.multimeshEgressGateway r.Config)
          r.multimeshEgressGatewayDesiredState
          (ext.k8sReconcile (r.object ext) r.desiredState w).2.2).1 = some e →
        (r.Reconcile ext w).err = some (Error.WrappedWith e "failed to reconcile dynamic resource"
          [KeyVal.str "resource",
           KeyVal.gvr (ext.dynReconcile (ext.multimeshEgressGateway r.Config)
             r.multimeshEgressGatewayDesiredState
             (ext.k8sReconcile (r.object ext) r.desiredState w).2.2).2.1.Gvr])
        ∧ delegatedResults (r.Reconcile ext w).trace = [none, some e])
    ∧ (k8sStates (r.Reconcile ext w).trace).length = 1
    ∧ (dynamicStates (r.Reconcile ext w).trace).length ≤ 1 := by
  rcases Reconcile_cases ext r w with ⟨e, o, w₁, h⟩ | ⟨o, w₁, h, hn⟩
    | ⟨o, w₁, e, o₂, w₂, h, hn, hd⟩ | ⟨o, w₁, o₂, w₂, h, hn, hd⟩
  · rw [Reconcile_of_k8s_error ext r w w₁ e o h, h]
    simp [delegatedResults, k8sStates, dynamicStates]
  · rw [Reconcile_of_istio_config ext r w w₁ o h hn, h]
    simp [delegatedResults, k8sStates, dynamicStates, hn]
  · rw [Reconcile_of_dynamic_error ext r w w₁ w₂ o e o₂ h hn hd, h]
    simp [delegatedResults, k8sStates, dynamicStates, hn, hd]
  · rw [Reconcile_of_dynamic_ok ext r w w₁ w₂ o o₂ h hn hd, h]
    simp [delegatedResults, k8sStates, dynamicStates, hn, hd]

/-- C6, amended: when `Reconcile` returns an error, the delegated reconcile that failed is the last
one the call issued and the only one that failed.  Either the MeshGateway reconcile failed and no
delegated reconcile completed, or the MeshGateway reconcile completed successfully, the resource
is not named `istio-config`, and the dynamic reconcile issued after it failed; the world is then
the one the failed dynamic reconcile left, built on the world of the successful first write. -/
theorem C6_error_means_last_delegate_failed (ext : Collaborators κ π μ δ W) (r : Reconciler κ π)
    (w : W) (h : (r.Reconcile ext w).err ≠ none) :
    (∃ e, delegatedResults (r.Reconcile ext w).trace = [some e]
      ∧ (ext.k8sReconcile (r.object ext) r.desiredState w).1 = some e
      ∧ (r.Reconcile ext w).world = (ext.k8sReconcile (r.object ext) r.desiredState w).2.2)
    ∨ (∃ e, delegatedResults (r.Reconcile ext w).trace = [none, some e]
      ∧ (ext.k8sReconcile (r.object ext) r.desiredState w).1 = none
      ∧ r.Config.Name ≠ "istio-config"
      ∧ (ext.dynReconcile (ext.multimeshEgressGateway r.Config)
          r.multimeshEgressGatewayDesiredState
          (ext.k8sReconcile (r.object ext) r.desiredState w).2.2).1 = some e
      ∧ (r.Reconcile ext w).world =
          (ext.dynReconcile (ext.multimeshEgressGateway r.Config)
            r.multimeshEgressGatewayDesiredState
            (ext.k8sReconcile (r.object ext) r.desiredState w).2.2).2.2) := by
  rcases Reconcile_cases ext r w with ⟨e, o, w₁, hk⟩ | ⟨o, w₁, hk, hn⟩
    | ⟨o, w₁, e, o₂, w₂, hk, hn, hd⟩ | ⟨o, w₁, o₂, w₂, hk, hn, hd⟩
  · rw [Reconcile_of_k8s_error ext r w w₁ e o hk, hk]
    exact Or.inl ⟨e, rfl, rfl, rfl⟩
  · rw [Reconcile_of_istio_config ext r w w₁ o hk hn] at h
    exact absurd rfl h
  · rw [Reconcile_of_dynamic_error ext r w w₁ w₂ o e o₂ hk hn hd, hk]
    refine Or.inr ⟨e, rfl, rfl, hn, ?_, ?_⟩
    · show (ext.dynReconcile _ _ w₁).1 = some e
      rw [hd]
    · show w₂ = (ext.dynReconcile _ _ w₁).2.2
      rw [hd]
  · rw [Reconcile_of_dynamic_ok ext r w w₁ w₂ o o₂ hk hn hd] at h
    exact absurd rfl h

/-- C7: the desired state of the multi-mesh egress gateway is `Present` iff `MultiMesh` and
`EgressConfig.Enabled` are both set and true and `CreateOnly` is not, `Exists` iff both are and
`CreateOnly` is too, `Absent` iff they are not both set and true.  Every dynamic reconcile the
call issues receives exactly that state, and one is issued whenever the MeshGateway reconcile
succeeds and the resource is not named `istio-config`. -/
theorem C7_multimesh_desired_state (ext : Collaborators κ π μ δ W) (r : Reconciler κ π) (w : W) :
    ∃ s : DesiredState,
      (s = DesiredStatePresent ↔
          (r.Config.Spec.MultiMesh = some true
            ∧ r.Config.Spec.Gateways.EgressConfig.Enabled = some true)
          ∧ ¬ r.Config.Spec.Gateways.EgressConfig.CreateOnly = some true)
      ∧ (s = DesiredStateExists ↔
          (r.Config.Spec.MultiMesh = some true
            ∧ r.Config.Spec.Gateways.EgressConfig.Enabled = some true)
          ∧ r.Config.Spec.Gateways.EgressConfig.CreateOnly = some true)
      ∧ (s = DesiredStateAbsent ↔
          ¬ (r.Config.Spec.MultiMesh = some true
            ∧ r.Config.Spec.Gateways.EgressConfig.Enabled = some true))
      ∧ (∀ s' ∈ dynamicStates (r.Reconcile ext w).trace, s' = s)
      ∧ ((ext.k8sReconcile (r.object ext) r.desiredState w).1 = none
          ∧ r.Config.Name ≠ "istio-config" →
          dynamicStates (r.Reconcile ext w).trace = [s]) := by
  obtain ⟨hP, hE, hA⟩ := multimeshEgressGatewayDesiredState_cases r
  refine ⟨r.multimeshEgressGatewayDesiredState, hP, hE, hA, ?_⟩
  rcases Reconcile_cases ext r w with ⟨e, o, w₁, h⟩ | ⟨o, w₁, h, hn⟩
    | ⟨o, w₁, e, o₂, w₂, h, hn, hd⟩ | ⟨o, w₁, o₂, w₂, h, hn, hd⟩
  · rw [Reconcile_of_k8s_error ext r w w₁ e o h, h]
    simp [dynamicStates]
  · rw [Reconcile_of_istio_config ext r w w₁ o h hn, h]
    simp [dynamicStates, hn]
  · rw [Reconcile_of_dynamic_error ext r w w₁ w₂ o e o₂ h hn hd, h]
    simp [dynamicStates]
  · rw [Reconcile_of_dynamic_ok ext r w w₁ w₂ o o₂ h hn hd, h]
    simp [dynamicStates]

/-- C9: when `Config.Name` is `istio-config` and the MeshGateway reconcile succeeds, `Reconcile`
returns nil and the trace holds no dynamic reconcile: the multi-mesh desired state, whatever it
is, is not acted on.  The world is the one the MeshGateway reconcile left. -/
theorem C9_istio_config_skips_dynamic (ext : Collaborators κ π μ δ W) (r : Reconciler κ π) (w : W)
    (hn : r.Config.Name = "istio-config")
    (hk : (ext.k8sReconcile (r.object ext) r.desiredState w).1 = none) :
    (r.Reconcile ext w).err = none
    ∧ (∀ ev ∈ (r.Reconcile ext w).trace, ev.isDynamicReconcile = false)
    ∧ dynamicStates (r.Reconcile ext w).trace = []
    ∧ (r.Reconcile ext w).world = (ext.k8sReconcile (r.object ext) r.desiredState w).2.2 := by
  rcases h : ext.k8sReconcile (r.object ext) r.desiredState w with ⟨_ | e, o, w₁⟩
  · rw [Reconcile_of_istio_config ext r w w₁ o h hn]
    refine ⟨rfl, ?_, rfl, rfl⟩
    intro ev hev
    simp only [List.mem_cons, List.mem_singleton, List.not_mem_nil, or_false] at hev
    rcases hev with rfl | rfl | rfl <;> rfl
  · rw [h] at hk; exact absurd hk (by simp)

/-- C10: replacing `Spec.Gateways.Enabled` leaves the derived multi-mesh desired state unchanged,
so any two dynamic reconciles issued for configurations that differ only in that flag receive
the same state, and when both MeshGateway reconciles succeed for a resource not named
`istio-config` both calls issue the same, single dynamic reconcile state.  The MeshGateway
desired state does depend on the flag: it differs between the flag set to true and to false
exactly when `EgressConfig.Enabled` is set and true. -/
theorem C10_multimesh_independent_of_gateways_enabled (ext : Collaborators κ π μ δ W)
    (r : Reconciler κ π) (flag : Option Bool) (w w' : W) :
    (r.withGatewaysEnabled flag).multimeshEgressGatewayDesiredState
      = r.multimeshEgressGatewayDesiredState
    ∧ (∀ s ∈ dynamicStates (r.Reconcile ext w).trace,
        ∀ s' ∈ dynamicStates ((r.withGatewaysEnabled flag).Reconcile ext w').trace, s = s')
    ∧ ((ext.k8sReconcile (r.object ext) r.desiredState w).1 = none
        ∧ (ext.k8sReconcile ((r.withGatewaysEnabled flag).object ext)
            (r.withGatewaysEnabled flag).desiredState w').1 = none
        ∧ r.Config.Name ≠ "istio-config" →
        dynamicStates (r.Reconcile ext w).trace
          = dynamicStates ((r.withGatewaysEnabled flag).Reconcile ext w').trace
        ∧ dynamicStates (r.Reconcile ext w).trace ≠ [])
    ∧ ((r.withGatewaysEnabled (some true)).desiredState
          ≠ (r.withGatewaysEnabled (some false)).desiredState
        ↔ r.Config.Spec.Gateways.EgressConfig.Enabled = some true) := by
  have hmm : (r.withGatewaysEnabled flag).multimeshEgressGatewayDesiredState
      = r.multimeshEgressGatewayDesiredState := rfl
  refine ⟨hmm, ?_, ?_, ?_⟩
  · intro s hs s' hs'
    rw [dynamicStates_Reconcile ext r w s hs,
      dynamicStates_Reconcile ext (r.withGatewaysEnabled flag) w' s' hs', hmm]
  · rintro ⟨hk, hk', hn⟩
    rw [dynamicStates_Reconcile_issued ext r w hk hn,
      dynamicStates_Reconcile_issued ext (r.withGatewaysEnabled flag) w' hk' hn, hmm]
    exact ⟨rfl, by simp⟩
  · unfold Reconciler.desiredState Reconciler.withGatewaysEnabled
    simp only [Bool.and_eq_true, PointerToBool_eq_true]
    by_cases h2 : r.Config.Spec.Gateways.EgressConfig.Enabled = some true
      <;> by_cases h3 : r.Config.Spec.Gateways.EgressConfig.CreateOnly = some true
      <;> simp [h2, h3]

end

/-! ### `Reconcile` at concrete inputs -/

/-- C4 at a concrete input: the MeshGateway reconcile is refused, `Reconcile` fails and the
dynamic reconcile is not called. -/
theorem C4_stops_after_failed_write_witness :
    ((sampleCollaborators (some (Error.New "conflict")) none).k8sReconcile
        ((sampleReconciler "mesh" (some true) (some true) (some true) none).object
          (sampleCollaborators (some (Error.New "conflict")) none))
        (sampleReconciler "mesh" (some true) (some true) (some true) none).desiredState 0).1 ≠ none
    ∧ ((sampleReconciler "mesh" (some true) (some true) (some true) none).Reconcile
        (sampleCollaborators (some (Error.New "conflict")) none) 0).err ≠ none
    ∧ dynamicStates ((sampleReconciler "mesh" (some true) (some true) (some true) none).Reconcile
        (sampleCollaborators (some (Error.New "conflict")) none) 0).trace = [] :=
  ⟨by decide,
   (C4_stops_after_failed_write (sampleCollaborators (some (Error.New "conflict")) none)
      (sampleReconciler "mesh" (some true) (some true) (some true) none) 0 (by decide)).1,
   (C4_stops_after_failed_write (sampleCollaborators (some (Error.New "conflict")) none)
      (sampleReconciler "mesh" (some true) (some true) (some true) none) 0 (by decide)).2.2.1⟩

/-- C6, refuted as stated: with a resource not named `istio-config`, a MeshGateway reconcile that
succeeds and a dynamic reconcile that fails, `Reconcile` returns an error although a delegated
reconcile of the same call completed successfully (and its write is in the final world). -/
theorem C6_partial_application_counterexample :
    ((sampleReconciler "mesh" (some true) (some true) (some true) none).Reconcile
        (sampleCollaborators none (some (Error.New "forbidden"))) 0).err ≠ none
    ∧ none ∈ delegatedResults
        ((sampleReconciler "mesh" (some true) (some true) (some true) none).Reconcile
          (sampleCollaborators none (some (Error.New "forbidden"))) 0).trace
    ∧ ((sampleReconciler "mesh" (some true) (some true) (some true) none).Reconcile
        (sampleCollaborators none (some (Error.New "forbidden"))) 0).world = 2 := by
  decide

/-- C6 (amended) at a concrete input: the dynamic reconcile fails after a successful first write,
and the results of the delegated calls are a success followed by the failure. -/
theorem C6_error_means_last_delegate_failed_witness :
    ((sampleReconciler "mesh" (some true) (some true) (some true) none).Reconcile
        (sampleCollaborators none (some (Error.New "forbidden"))) 0).err ≠ none
    ∧ delegatedResults ((sampleReconciler "mesh" (some true) (some true) (some true) none).Reconcile
        (sampleCollaborators none (some (Error.New "forbidden"))) 0).trace
      = [none, some (Error.New "forbidden")] := by
  refine ⟨by decide, ?_⟩
  rcases C6_error_means_last_delegate_failed
      (sampleCollaborators none (some (Error.New "forbidden")))
      (sampleReconciler "mesh" (some true) (some true) (some true) none) 0 (by decide) with
    ⟨e, _, hk, _⟩ | ⟨e, hres, _, _, hd, _⟩
  · have hk' : (none : Option Error) = some e := hk
    cases hk'
  · have he : e = Error.New "forbidden" := by
      have hd' : (some (Error.New "forbidden") : Option Error) = some e := hd
      exact (Option.some.inj hd').symm
    rw [hres, he]

/-- C9 at concrete inputs: for the resource named `istio-config`, with the multi-mesh state
derived as `Present`, `Exists` and `Absent` in turn, `Reconcile` returns nil and issues no
dynamic reconcile. -/
theorem C9_istio_config_skips_dynamic_witness :
    ((sampleReconciler "istio-config" (some true) none (some true) none).multimeshEgressGatewayDesiredState
        = DesiredStatePresent
      ∧ ((sampleReconciler "istio-config" (some true) none (some true) none).Reconcile
          (sampleCollaborators none (some (Error.New "forbidden"))) 0).err = none)
    ∧ ((sampleReconciler "istio-config" (some true) none (some true) (some true)).multimeshEgressGatewayDesiredState
        = DesiredStateExists
      ∧ dynamicStates ((sampleReconciler "istio-config" (some true) none (some true) (some true)).Reconcile
          (sampleCollaborators none (some (Error.New "forbidden"))) 0).trace = [])
    ∧ ((sampleReconciler "istio-config" none none (some true) none).multimeshEgressGatewayDesiredState
        = DesiredStateAbsent
      ∧ ((sampleReconciler "istio-config" none none (some true) none).Reconcile
          (sampleCollaborators none (some (Error.New "forbidden"))) 0).err = none) :=
  ⟨⟨by decide,
    (C9_istio_config_skips_dynamic (sampleCollaborators none (some (Error.New "forbidden")))
      (sampleReconciler "istio-config" (some true) none (some true) none) 0 rfl rfl).1⟩,
   ⟨by decide,
    (C9_istio_config_skips_dynamic (sampleCollaborators none (some (Error.New "forbidden")))
      (sampleReconciler "istio-config" (some true) none (some true) (some true)) 0 rfl rfl).2.2.1⟩,
   ⟨by decide,
    (C9_istio_config_skips_dynamic (sampleCollaborators none (some (Error.New "forbidden")))
      (sampleReconciler "istio-config" none none (some true) none) 0 rfl rfl).1⟩⟩

end egressgateway

/-! ## Theorems: the unstructured matcher -/

namespace objectmatch

section
variable {U Data : Type}

/-- The result of `Match` when marshalling `old` fails. -/
theorem Match_of_old_error (jsonMarshal : U → Data × Option Error)
    (innerMatch : Data → Data → U → Bool × Option Error) (old new : U) (e : Error)
    (h : (jsonMarshal old).2 = some e) :
    UnstructuredMatcher.Match jsonMarshal innerMatch old new
      = (false, some (Error.Wrapped e "could not marshal object")) := by
  rcases ho : jsonMarshal old with ⟨d, _ | e'⟩
  · rw [ho] at h; exact absurd h (by simp)
  · rw [ho] at h
    obtain rfl : e' = e := Option.some.inj h
    simp [UnstructuredMatcher.Match, ho, emperror.Wrap]

/-- The result of `Match` when `old` marshals and marshalling `new` fails. -/
theorem Match_of_new_error (jsonMarshal : U → Data × Option Error)
    (innerMatch : Data → Data → U → Bool × Option Error) (old new : U) (e : Error)
    (ho : (jsonMarshal old).2 = none) (h : (jsonMarshal new).2 = some e) :
    UnstructuredMatcher.Match jsonMarshal innerMatch old new
      = (false, some (Error.Wrapped e "could not marshal object")) := by
  rcases ho' : jsonMarshal old with ⟨d, _ | e'⟩
  · rcases hn : jsonMarshal new with ⟨d', _ | e''⟩
    · rw [hn] at h; exact absurd h (by simp)
    · rw [hn] at h
      obtain rfl : e'' = e := Option.some.inj h
      simp [UnstructuredMatcher.Match, ho', hn, emperror.Wrap]
  · rw [ho'] at ho; exact absurd ho (by simp)

/-- The result of `Match` when both documents marshal: the inner verdict, or its error wrapped. -/
theorem Match_of_marshalled (jsonMarshal : U → Data × Option Error)
    (innerMatch : Data → Data → U → Bool × Option Error) (old new : U)
    (ho : (jsonMarshal old).2 = none) (hn : (jsonMarshal new).2 = none) :
    UnstructuredMatcher.Match jsonMarshal innerMatch old new
      = match innerMatch (jsonMarshal old).1 (jsonMarshal new).1 new with
        | (_, some err) => (false, some (Error.Wrapped err "could not match objects"))
        | (matched, none) => (matched, none) := by
  rcases ho' : jsonMarshal old with ⟨d, _ | e'⟩
  · rcases hn' : jsonMarshal new with ⟨d', _ | e''⟩
    · simp only [UnstructuredMatcher.Match, ho', hn']
      rcases innerMatch d d' new with ⟨b, _ | e⟩ <;> simp [emperror.Wrap]
    · rw [hn'] at hn; exact absurd hn (by simp)
  · rw [ho'] at ho; exact absurd ho (by simp)

/-! ### Properties of `UnstructuredMatcher.Match` with an arbitrary inner match -/

/-- C2: whenever marshalling `old` fails, or `old` marshals and marshalling `new` fails, or both
marshal and the inner match fails, `Match` returns `false` together with the cause wrapped in a
non-nil error; and `Match` returns a nil error only when both marshals and the inner match
succeeded. -/
theorem C2_match_reports_failures (jsonMarshal : U → Data × Option Error)
    (innerMatch : Data → Data → U → Bool × Option Error) (old new : U) :
    (∀ e, (jsonMarshal old).2 = some e →
        UnstructuredMatcher.Match jsonMarshal innerMatch old new
          = (false, some (Error.Wrapped e "could not marshal object")))
    ∧ (∀ e, (jsonMarshal old).2 = none → (jsonMarshal new).2 = some e →
        UnstructuredMatcher.Match jsonMarshal innerMatch old new
          = (false, some (Error.Wrapped e "could not marshal object")))
    ∧ (∀ e, (jsonMarshal old).2 = none → (jsonMarshal new).2 = none →
        (innerMatch (jsonMarshal old).1 (jsonMarshal new).1 new).2 = some e →
        UnstructuredMatcher.Match jsonMarshal innerMatch old new
          = (false, some (Error.Wrapped e "could not match objects")))
    ∧ ((jsonMarshal old).2 ≠ none ∨ (jsonMarshal new).2 ≠ none
        ∨ (innerMatch (jsonMarshal old).1 (jsonMarshal new).1 new).2 ≠ none →
        (UnstructuredMatcher.Match jsonMarshal innerMatch old new).1 = false
        ∧ (UnstructuredMatcher.Match jsonMarshal innerMatch old new).2 ≠ none)
    ∧ ((UnstructuredMatcher.Match jsonMarshal innerMatch old new).2 = none →
        (jsonMarshal old).2 = none ∧ (jsonMarshal new).2 = none
        ∧ (innerMatch (jsonMarshal old).1 (jsonMarshal new).1 new).2 = none) := by
  have h3 : ∀ e, (jsonMarshal old).2 = none → (jsonMarshal new).2 = none →
      (innerMatch (jsonMarshal old).1 (jsonMarshal new).1 new).2 = some e →
      UnstructuredMatcher.Match jsonMarshal innerMatch old new
        = (false, some (Error.Wrapped e "could not match objects")) := by
    intro e ho hn hi
    rw [Match_of_marshalled jsonMarshal innerMatch old new ho hn]
    rcases hm : innerMatch (jsonMarshal old).1 (jsonMarshal new).1 new with ⟨b, _ | e'⟩
    · rw [hm] at hi; exact absurd hi (by simp)
    · rw [hm] at hi
      obtain rfl : e' = e := Option.some.inj hi
      rfl
  have hfail : (jsonMarshal old).2 ≠ none ∨ (jsonMarshal new).2 ≠ none
      ∨ (innerMatch (jsonMarshal old).1 (jsonMarshal new).1 new).2 ≠ none →
      (UnstructuredMatcher.Match jsonMarshal innerMatch old new).1 = false
      ∧ (UnstructuredMatcher.Match jsonMarshal innerMatch old new).2 ≠ none := by
    intro _
    rcases ho : (jsonMarshal old).2 with _ | e
    · rcases hn : (jsonMarshal new).2 with _ | e
      · rcases hi : (innerMatch (jsonMarshal old).1 (jsonMarshal new).1 new).2 with _ | e
        · simp_all
        · rw [h3 e ho hn hi]; simp
      · rw [Match_of_new_error jsonMarshal innerMatch old new e ho hn]; simp
    · rw [Match_of_old_error jsonMarshal innerMatch old new e ho]; simp
  refine ⟨fun e h => Match_of_old_error jsonMarshal innerMatch old new e h,
    fun e ho h => Match_of_new_error jsonMarshal innerMatch old new e ho h, h3, hfail, ?_⟩
  intro hnil
  by_contra hcon
  have hor : (jsonMarshal old).2 ≠ none ∨ (jsonMarshal new).2 ≠ none
      ∨ (innerMatch (jsonMarshal old).1 (jsonMarshal new).1 new).2 ≠ none := by
    by_contra hno
    push_neg at hno
    exact hcon hno
  exact (hfail hor).2 hnil

/-- C8: for documents that both marshal, `Match old new` returns `(b, nil)` exactly when the inner
match, called with the marshalled `old`, the marshalled `new` and `new` in that order, returns
`(b, nil)`. -/
theorem C8_match_passes_verdict_through (jsonMarshal : U → Data × Option Error)
    (innerMatch : Data → Data → U → Bool × Option Error) (old new : U) (b : Bool)
    (ho : (jsonMarshal old).2 = none) (hn : (jsonMarshal new).2 = none) :
    UnstructuredMatcher.Match jsonMarshal innerMatch old new = (b, none)
      ↔ innerMatch (jsonMarshal old).1 (jsonMarshal new).1 new = (b, none) := by
  rw [Match_of_marshalled jsonMarshal innerMatch old new ho hn]
  rcases innerMatch (jsonMarshal old).1 (jsonMarshal new).1 new with ⟨m, _ | e⟩
  · simp
  · simp

end

/-- C2 at concrete inputs: an `old` that does not marshal, and a `new` that does not marshal after
an `old` that does, both give `false` with the marshalling error wrapped. -/
theorem C2_match_reports_failures_witness :
    UnstructuredMatcher.Match sampleMarshal sampleInnerMatch 0 3
        = (false, some (Error.Wrapped (Error.New "unsupported value") "could not marshal object"))
    ∧ UnstructuredMatcher.Match sampleMarshal sampleInnerMatch 6 0
        = (false, some (Error.Wrapped (Error.New "unsupported value") "could not marshal object")) :=
  ⟨(C2_match_reports_failures sampleMarshal sampleInnerMatch 0 3).1 _ rfl,
   (C2_match_reports_failures sampleMarshal sampleInnerMatch 6 0).2.1 _ rfl rfl⟩

/-- C8 at a concrete input: both numbers marshal, the inner match says the new datum divides the
old one, and `Match` returns that verdict; with the arguments swapped the verdict is the other one. -/
theorem C8_match_passes_verdict_through_witness :
    ((sampleMarshal 6).2 = none ∧ (sampleMarshal 3).2 = none)
    ∧ (UnstructuredMatcher.Match sampleMarshal sampleInnerMatch 6 3 = (true, none)
        ↔ sampleInnerMatch (sampleMarshal 6).1 (sampleMarshal 3).1 3 = (true, none))
    ∧ UnstructuredMatcher.Match sampleMarshal sampleInnerMatch 6 3 = (true, none)
    ∧ UnstructuredMatcher.Match sampleMarshal sampleInnerMatch 3 6 = (false, none) :=
  ⟨⟨by decide, by decide⟩,
   C8_match_passes_verdict_through sampleMarshal sampleInnerMatch 6 3 true (by decide) (by decide),
   by decide, by decide⟩

/-! ### The asymmetry of the matcher of section 4.1 -/

/-- The walk finds no differing path when live is desired with fields added and live has unique keys. -/
theorem diff_of_addsFields (defaults : DefaultsTable) (d l : Document) (h : AddsFields d l) :
    l.uniqueKeys = true → ∀ path, diffPaths defaults path l d = [] := by
  refine AddsFields.rec
    (motive_1 := fun d l _ => l.uniqueKeys = true → ∀ path, diffPaths defaults path l d = [])
    (motive_2 := fun ds ls _ => Document.uniqueKeysFields ls = true → ∀ path full,
      (∀ k, (List.lookup k ls).isSome = true → List.lookup k full = List.lookup k ls) →
      diffFields defaults path full ds = [])
    (motive_3 := fun ds ls _ => Document.uniqueKeysItems ls = true → ∀ path i,
      diffItems defaults path i ls ds = [])
    ?_ ?_ ?_ ?_ ?_ ?_ ?_ ?_ ?_ ?_ ?_ h
  · intro _ path; simp [diffPaths]
  · intro b _ path; simp [diffPaths]
  · intro n _ path; simp [diffPaths]
  · intro s _ path; simp [diffPaths]
  · intro ds ls _ ih hu path
    simp only [diffPaths]
    exact ih (by simpa [Document.uniqueKeys] using hu) path ls (fun _ _ => rfl)
  · intro ds ls _ ih hu path
    simp only [diffPaths]
    exact ih (by simpa [Document.uniqueKeys] using hu) path 0
  · intro _ path full _; simp [diffFields]
  · intro k dv lv ds ls _ _ ih1 ih2 hu path full hfull
    simp only [Document.uniqueKeysFields, Bool.and_eq_true] at hu
    obtain ⟨⟨hk, hv⟩, hrest⟩ := hu
    have hhead : List.lookup k full = some lv := by
      rw [hfull k (by simp [List.lookup])]
      simp [List.lookup]
    simp only [diffFields, hhead, List.append_eq_nil]
    refine ⟨ih1 hv _, ih2 hrest path full ?_⟩
    intro k' hk'
    have hne : (k' == k) = false := by
      cases hb : (k' == k) with
      | false => rfl
      | true =>
        have : k' = k := by simpa using hb
        subst this
        rw [Option.isNone_iff_eq_none] at hk
        rw [hk] at hk'
        simp at hk'
    rw [hfull k' (by simp [List.lookup, hne, hk'])]
    simp [List.lookup, hne]
  · intro k v ds ls _ ih hu path full hfull
    simp only [Document.uniqueKeysFields, Bool.and_eq_true] at hu
    obtain ⟨⟨hk, _⟩, hrest⟩ := hu
    refine ih hrest path full ?_
    intro k' hk'
    have hne : (k' == k) = false := by
      cases hb : (k' == k) with
      | false => rfl
      | true =>
        have : k' = k := by simpa using hb
        subst this
        rw [Option.isNone_iff_eq_none] at hk
        rw [hk] at hk'
        simp at hk'
    rw [hfull k' (by simp [List.lookup, hne, hk'])]
    simp [List.lookup, hne]
  · intro _ path i; simp [diffItems]
  · intro dv lv ds ls _ _ ih1 ih2 hu path i
    simp only [Document.uniqueKeysItems, Bool.and_eq_true] at hu
    simp only [diffItems, List.tail_cons, List.append_eq_nil]
    exact ⟨ih1 hu.1 _, ih2 hu.2 path (i + 1)⟩

/-- The walk is not blind: a live value that differs from the desired one is reported at its
path, and a desired field that live lacks is reported unless the table lists it as a default. -/
theorem diffPaths_samples :
    diffPaths (fun _ => none) [] sampleDrifted sampleDesired
        = [[Segment.key "spec", Segment.key "replicas"]]
    ∧ diffPaths (fun _ => none) [] sampleDesired sampleLive
        = [[Segment.key "spec", Segment.key "clusterIP"], [Segment.key "uid"]]
    ∧ diffPaths (fun p => if p = [Segment.key "uid"] then some (Document.string "7f3c") else none)
        [] sampleDesired sampleLive
        = [[Segment.key "spec", Segment.key "clusterIP"]] := by
  decide

/-- C3: let `D` and `L` marshal to the documents `d` and `l`, where `l` is obtained from `d` by
adding extra fields to its mappings at any depth and, as section 3 asks of every document, the
mappings of `l` have unique keys.  Then `Match L D`, with the matcher of section 4.1 as inner
match and any defaults table, returns `(true, nil)`: what only live has is ignored. -/
theorem C3_extra_live_fields_ignored {U : Type} (jsonMarshal : U → Document × Option Error)
    (defaults : DefaultsTable) (L D : U) (l d : Document)
    (hL : jsonMarshal L = (l, none)) (hD : jsonMarshal D = (d, none))
    (hu : l.uniqueKeys = true) (hadd : AddsFields d l) :
    UnstructuredMatcher.Match jsonMarshal (match_ defaults) L D = (true, none) := by
  have hwalk := diff_of_addsFields defaults d l hadd hu []
  simp [UnstructuredMatcher.Match, hL, hD, match_, hwalk]

/-- C3 at a concrete input: `sampleLive` is `sampleDesired` with a `uid` at the top and a
`clusterIP` under `spec`; matching it against `sampleDesired` gives `(true, nil)`, while the
match in the other direction gives `(false, nil)`. -/
theorem C3_extra_live_fields_ignored_witness :
    UnstructuredMatcher.Match marshalDocument (match_ (fun _ => none)) sampleLive sampleDesired
      = (true, none)
    ∧ UnstructuredMatcher.Match marshalDocument (match_ (fun _ => none)) sampleDesired sampleLive
      = (false, none) :=
  ⟨C3_extra_live_fields_ignored marshalDocument (fun _ => none) sampleLive sampleDesired
    sampleLive sampleDesired rfl rfl (by decide)
    (AddsFields.mapping
      (AddsFieldsMapping.keep (AddsFields.string "Gateway")
        (AddsFieldsMapping.keep
          (AddsFields.mapping
            (AddsFieldsMapping.extra
              (AddsFieldsMapping.keep (AddsFields.number 1) AddsFieldsMapping.nil)))
          (AddsFieldsMapping.extra AddsFieldsMapping.nil)))),
   by decide⟩

end objectmatch
